import Mathlib

/-!
Verification of the RestaurantGrader repository against its specification.

The frontend (TypeScript, under `src/`) is embedded shallowly:
* `src/types/api.ts` data shapes become Lean structures over `ℚ`/`String`;
* `src/components/ScanProgress.tsx`'s polling logic becomes a pure step
  function (`pollScanStep`) plus a deterministic driver (`runLoop`) that
  reflects the React effect lifecycle (effect re-runs keyed on the `status`
  state, ref-based completion guard, interval closure capturing the status
  value of the render that created it);
* `src/pages/Index.tsx`'s screen flow becomes a labelled transition system
  (`IndexStep`) over an `IndexModel` record.

Backend pieces (`scan_orchestrator.py`, `routes/website.py`,
`core/scoring.py`) are not present in the repository snapshot; they are
modelled from the specification and from the code excerpts quoted in the
in-repo documentation, and each such definition is marked
`Modelled from the spec:` in its doc comment.
-/

/-- Scan lifecycle status, from `src/types/api.ts` (`ScanResponse.status`):
`'pending' | 'in_progress' | 'completed' | 'failed'`. -/
inductive ScanStatus where
  | pending
  | in_progress
  | completed
  | failed
deriving DecidableEq, Repr

/-- Response of `GET /api/scans/{id}`, from `ScanResponse` in
`src/types/api.ts`. Optional fields become `Option`; the numeric score is a
rational. -/
structure ScanResponse where
  id : String
  restaurant_name : String
  restaurant_website : String
  status : ScanStatus
  overall_score : Option ℚ
  error_message : Option String
  created_at : Option String
  completed_at : Option String
deriving DecidableEq, Repr

/-- JavaScript `x || 0` on an optional number: `undefined` and `0` are both
falsy, every other number is returned unchanged. Embeds
`scan.overall_score || 0` from `ScanProgress.tsx` line 73. -/
def jsOrZero (x : Option ℚ) : ℚ :=
  match x with
  | none => 0
  | some v => if v = 0 then 0 else v

/-- Payload handed to `onComplete` in the completed branch of `pollScan`
(`ScanProgress.tsx` lines 72-75). -/
structure CompletionData where
  overall : ℚ
  scanData : ScanResponse
deriving DecidableEq, Repr

/-- State of the `ScanProgress` component.  React state hooks
(`status`, `progress`, `currentScan`), the `hasCompletedRef` ref, the
polling interval (`intervalClosure = some s` means an interval is active
and its callback closed over status value `s`), whether a re-run of the
polling effect is scheduled (its dependency `status` changed), and a ghost
flag recording that a terminal status has been observed. -/
structure PState where
  statusVar : ScanStatus
  progress : Nat
  currentScan : Option ScanResponse
  hasCompleted : Bool
  intervalClosure : Option ScanStatus
  effectPending : Bool
  terminalSeen : Bool
deriving DecidableEq, Repr

/-- Component state at mount: `useState('pending')`, `useState(0)`,
refs `false`/`null`, and the mount effect about to run. -/
def initialPState : PState :=
  { statusVar := .pending
    progress := 0
    currentScan := none
    hasCompleted := false
    intervalClosure := none
    effectPending := true
    terminalSeen := false }

/-- Outcome of one `api.getScan` call: a response, or a thrown
network/server error (the `catch` branch of `pollScan`). -/
inductive PollOutcome where
  | ok (scan : ScanResponse)
  | netError
deriving DecidableEq, Repr

/-- One invocation of `pollScan` (`ScanProgress.tsx` lines 43-90) processing
one fetch outcome.  Returns the new component state and the payload passed
to `onComplete`, if it was invoked.  A thrown error is only logged
(lines 86-89): nothing changes and polling is not stopped. -/
def pollScanStep (c : PState) (o : PollOutcome) : PState × Option CompletionData :=
  match o with
  | .netError => (c, none)
  | .ok scan =>
    let c1 : PState :=
      { c with currentScan := some scan
               statusVar := scan.status
               effectPending := c.effectPending || decide (c.statusVar ≠ scan.status) }
    match scan.status with
    | .pending => ({ c1 with progress := 10 }, none)
    | .in_progress => ({ c1 with progress := 50 }, none)
    | .completed =>
        let c2 : PState := { c1 with progress := 100, intervalClosure := none, terminalSeen := true }
        if c.hasCompleted then (c2, none)
        else ({ c2 with hasCompleted := true }, some ⟨jsOrZero scan.overall_score, scan⟩)
    | .failed =>
        ({ c1 with progress := 0, intervalClosure := none, terminalSeen := true }, none)

/-- Sequential processing of a list of fetch outcomes through the shared
component state, collecting every `onComplete` payload.  Any interleaving of
`pollScan` invocations (including extra invocations from duplicate effect
firing) serialises into such a list because the event loop is
single-threaded and the completed branch contains no await. -/
def processAll (c : PState) (os : List PollOutcome) : PState × List CompletionData :=
  match os with
  | [] => (c, [])
  | o :: rest =>
    let p := pollScanStep c o
    let r := processAll p.1 rest
    (r.1, p.2.toList ++ r.2)

theorem pollScanStep_hasCompleted_mono (c : PState) (o : PollOutcome) :
    c.hasCompleted = true → (pollScanStep c o).1.hasCompleted = true := by
  intro h
  cases o with
  | netError => exact h
  | ok scan =>
    cases hs : scan.status <;> simp [pollScanStep, hs, h]

theorem pollScanStep_emits_only_once (c : PState) (o : PollOutcome) :
    c.hasCompleted = true → (pollScanStep c o).2 = none := by
  intro h
  cases o with
  | netError => rfl
  | ok scan =>
    cases hs : scan.status <;> simp [pollScanStep, hs, h]

theorem processAll_done (c : PState) (os : List PollOutcome) :
    c.hasCompleted = true → (processAll c os).2 = [] := by
  induction os generalizing c with
  | nil => intro _; rfl
  | cons o rest ih =>
    intro h
    simp only [processAll]
    rw [pollScanStep_emits_only_once c o h, ih _ (pollScanStep_hasCompleted_mono c o h)]
    rfl

theorem pollScanStep_emits_sets_flag (c : PState) (o : PollOutcome) (d : CompletionData) :
    (pollScanStep c o).2 = some d → (pollScanStep c o).1.hasCompleted = true := by
  intro h
  cases o with
  | netError => simp [pollScanStep] at h
  | ok scan =>
    cases hc : c.hasCompleted <;>
      cases hs : scan.status <;>
      simp_all [pollScanStep]

/-- C4: For every sequence of poll outcomes processed by the scan-progress
component for one scan — covering duplicate `pollScan` invocations caused
by React Strict Mode firing the effect twice, since all invocations share
`hasCompletedRef` and serialise on the single-threaded event loop — the
`onComplete` callback is invoked at most once. -/
theorem onComplete_at_most_once (c : PState) (os : List PollOutcome) :
    (processAll c os).2.length ≤ 1 := by
  induction os generalizing c with
  | nil => simp [processAll]
  | cons o rest ih =>
    simp only [processAll, List.length_append]
    cases hd : (pollScanStep c o).2 with
    | none => simpa using ih (pollScanStep c o).1
    | some d =>
      have hflag := pollScanStep_emits_sets_flag c o d hd
      rw [processAll_done _ _ hflag]
      simp

/-- Interval period of the recurring poll timer, from
`setInterval(..., 2000)` in `ScanProgress.tsx` line 107 (milliseconds). -/
def pollIntervalMs : Nat := 2000

/-- Is a status terminal (`completed` or `failed`)? The condition checked by
the interval callback (`ScanProgress.tsx` line 98). -/
def isTerminalStatus (s : ScanStatus) : Bool :=
  s = .completed || s = .failed

/-- One run of the polling `useEffect` body (`ScanProgress.tsx` lines
38-117).  The cleanup of the previous run has cleared any interval; the
body returns early when `hasCompletedRef.current` is set (line 39),
otherwise it issues an immediate `pollScan()` and installs the interval,
whose callback closes over the `status` value of the current render.
Returns the new state and whether an immediate poll was issued. -/
def runEffect (c : PState) : PState × Bool :=
  let c0 : PState := { c with effectPending := false, intervalClosure := none }
  if c0.hasCompleted then (c0, false)
  else ({ c0 with intervalClosure := some c0.statusVar }, true)

/-- Deterministic driver for the scan-progress component: consumes one
fetch outcome per HTTP GET issued.  A scheduled effect re-run (the effect's
dependency array contains `status`) executes before the next interval tick;
an interval whose closure saw a terminal status clears itself without
polling (lines 97-106); with no effect pending and no interval, no further
GET can ever be issued.  Returns, for each GET issued, whether a terminal
status had already been observed when it was issued, and the number of
`onComplete` invocations. -/
def runLoop (c : PState) (os : List PollOutcome) : List Bool × Nat :=
  match os with
  | [] => ([], 0)
  | o :: rest =>
    if c.effectPending then
      let ec := runEffect c
      if ec.2 then
        let pd := pollScanStep ec.1 o
        let r := runLoop pd.1 rest
        (ec.1.terminalSeen :: r.1, pd.2.toList.length + r.2)
      else ([], 0)
    else
      match c.intervalClosure with
      | none => ([], 0)
      | some s =>
        if isTerminalStatus s then ([], 0)
        else
          let pd := pollScanStep c o
          let r := runLoop pd.1 rest
          (c.terminalSeen :: r.1, pd.2.toList.length + r.2)

/-- Number of HTTP GETs the component issues after a terminal scan status
(`completed` or `failed`) has already been observed. -/
def pollsAfterTerminal (os : List PollOutcome) : Nat :=
  ((runLoop initialPState os).1.filter id).length

/-- A poll outcome that reports a terminal status. -/
def isTerminalOk (o : PollOutcome) : Bool :=
  match o with
  | .ok scan => isTerminalStatus scan.status
  | .netError => false

/-- A poll outcome that is either a network error or reports a terminal
status. -/
def isTerminalOrErr (o : PollOutcome) : Bool :=
  match o with
  | .ok scan => isTerminalStatus scan.status
  | .netError => true

/-- The server answers are terminal-absorbing: once some answer carries a
terminal status, every later answer carries a terminal status too. -/
def absorbingAfterTerminal (os : List PollOutcome) : Bool :=
  match os with
  | [] => true
  | o :: rest =>
    if isTerminalOk o then rest.all isTerminalOrErr
    else absorbingAfterTerminal rest

/-- Does some answer in the list report status `failed`? -/
def hasOkFailed (os : List PollOutcome) : Bool :=
  os.any (fun o =>
    match o with
    | .ok scan => scan.status = .failed
    | .netError => false)

theorem runLoop_completed_quiesce (c : PState) (os : List PollOutcome)
    (h1 : c.hasCompleted = true) (h2 : c.intervalClosure = none) :
    runLoop c os = ([], 0) := by
  cases os with
  | nil => rfl
  | cons o rest =>
    cases he : c.effectPending
    · simp [runLoop, he, h2]
    · simp [runLoop, runEffect, he, h1]

theorem runLoop_terminal_interval_quiesce (c : PState) (os : List PollOutcome) (s : ScanStatus)
    (h1 : c.effectPending = false) (h2 : c.intervalClosure = some s)
    (h3 : isTerminalStatus s = true) :
    runLoop c os = ([], 0) := by
  cases os with
  | nil => rfl
  | cons o rest => simp [runLoop, h1, h2, h3]

theorem runLoop_idle_quiesce (c : PState) (os : List PollOutcome)
    (h1 : c.effectPending = false) (h2 : c.intervalClosure = none) :
    runLoop c os = ([], 0) := by
  cases os with
  | nil => rfl
  | cons o rest => simp [runLoop, h1, h2]

theorem runLoop_failed_restart (c : PState) (os : List PollOutcome)
    (h1 : c.statusVar = .failed) (h2 : c.hasCompleted = false)
    (h4 : c.effectPending = true) (h5 : c.terminalSeen = true)
    (habs : os.all isTerminalOrErr = true) :
    ((runLoop c os).1.filter id).length ≤ 1 := by
  cases os with
  | nil => simp [runLoop]
  | cons o rest =>
    have hrest : rest.all isTerminalOrErr = true := by
      simp only [List.all_cons, Bool.and_eq_true] at habs
      exact habs.2
    have hhead : isTerminalOrErr o = true := by
      simp only [List.all_cons, Bool.and_eq_true] at habs
      exact habs.1
    cases o with
    | netError =>
      rw [runLoop]
      simp only [h4, if_true]
      have hec : runEffect c =
          ({ c with effectPending := false, intervalClosure := some c.statusVar }, true) := by
        simp [runEffect, h2]
      rw [hec]
      simp only [pollScanStep]
      rw [runLoop_terminal_interval_quiesce _ rest c.statusVar rfl rfl (by simp [h1, isTerminalStatus])]
      simp [h5]
    | ok scan =>
      rw [runLoop]
      simp only [h4, if_true]
      have hec : runEffect c =
          ({ c with effectPending := false, intervalClosure := some c.statusVar }, true) := by
        simp [runEffect, h2]
      rw [hec]
      cases hss : scan.status with
      | pending => simp [isTerminalOrErr, hss, isTerminalStatus] at hhead
      | in_progress => simp [isTerminalOrErr, hss, isTerminalStatus] at hhead
      | completed =>
        simp only [pollScanStep, hss, h2, Bool.false_eq_true, if_false]
        rw [runLoop_completed_quiesce _ rest rfl rfl]
        simp [h5]
      | failed =>
        simp only [pollScanStep, hss]
        rw [runLoop_idle_quiesce _ rest (by simp [h1]) rfl]
        simp [h5]

/-- Invariant of the component state before any terminal status has been
observed: nothing has completed, the `status` state is non-terminal, and
any active interval closed over a non-terminal status. -/
def PollingPre (c : PState) : Prop :=
  c.terminalSeen = false ∧ c.hasCompleted = false ∧
  isTerminalStatus c.statusVar = false ∧
  ∀ s, c.intervalClosure = some s → isTerminalStatus s = false

theorem nonterminal_ne_failed (s : ScanStatus) (h : isTerminalStatus s = false) :
    s ≠ .failed := by
  intro he
  rw [he] at h
  simp [isTerminalStatus] at h

theorem afterIssue_bound (o : PollOutcome) (rest : List PollOutcome) (base : PState)
    (hpre : PollingPre base) (hep : base.effectPending = false)
    (habs : absorbingAfterTerminal (o :: rest) = true)
    (ih : ∀ c : PState, PollingPre c → absorbingAfterTerminal rest = true →
      ((runLoop c rest).1.filter id).length ≤ 1) :
    ((runLoop (pollScanStep base o).1 rest).1.filter id).length ≤ 1 := by
  obtain ⟨hts, hhc, hsv, hic⟩ := hpre
  cases o with
  | netError =>
    simp only [absorbingAfterTerminal, isTerminalOk, Bool.false_eq_true, if_false] at habs
    exact ih _ ⟨hts, hhc, hsv, hic⟩ habs
  | ok scan =>
    cases hss : scan.status with
    | pending =>
      simp only [absorbingAfterTerminal, isTerminalOk, hss, isTerminalStatus,
        Bool.false_eq_true, if_false] at habs
      simp only [pollScanStep, hss]
      refine ih _ ⟨hts, hhc, by simp [isTerminalStatus], ?_⟩ habs
      intro s hs
      simp only at hs
      exact hic s hs
    | in_progress =>
      simp only [absorbingAfterTerminal, isTerminalOk, hss, isTerminalStatus,
        Bool.false_eq_true, if_false] at habs
      simp only [pollScanStep, hss]
      refine ih _ ⟨hts, hhc, by simp [isTerminalStatus], ?_⟩ habs
      intro s hs
      simp only at hs
      exact hic s hs
    | completed =>
      simp only [pollScanStep, hss, hhc, Bool.false_eq_true, if_false]
      rw [runLoop_completed_quiesce _ rest rfl rfl]
      simp
    | failed =>
      simp only [absorbingAfterTerminal, isTerminalOk, hss, isTerminalStatus,
        Bool.or_true, if_true] at habs
      simp only [pollScanStep, hss]
      refine runLoop_failed_restart _ rest rfl hhc ?_ rfl habs
      simp [hep, nonterminal_ne_failed base.statusVar hsv]

theorem runLoop_pre_bound (os : List PollOutcome) :
    ∀ c : PState, PollingPre c → absorbingAfterTerminal os = true →
      ((runLoop c os).1.filter id).length ≤ 1 := by
  induction os with
  | nil =>
    intro c _ _
    simp [runLoop]
  | cons o rest ih =>
    intro c hpre habs
    obtain ⟨hts, hhc, hsv, hic⟩ := hpre
    cases he : c.effectPending with
    | true =>
      rw [runLoop]
      simp only [he, if_true]
      have hec : runEffect c =
          ({ c with effectPending := false, intervalClosure := some c.statusVar }, true) := by
        simp [runEffect, hhc]
      rw [hec]
      simp only [List.filter_cons, hts, id_eq, Bool.false_eq_true, if_false]
      refine afterIssue_bound o rest _ ⟨?_, ?_, ?_, ?_⟩ rfl habs ih
      · simp [hts]
      · simpa using hhc
      · simpa using hsv
      · intro s hs
        simp only [Option.some.injEq] at hs
        rw [← hs]
        exact hsv
    | false =>
      cases hcl : c.intervalClosure with
      | none =>
        rw [runLoop_idle_quiesce c (o :: rest) he hcl]
        simp
      | some s =>
        have hsterm : isTerminalStatus s = false := hic s hcl
        rw [runLoop]
        simp only [he, hcl, hsterm, Bool.false_eq_true, if_false]
        simp only [List.filter_cons, hts, id_eq, Bool.false_eq_true, if_false]
        exact afterIssue_bound o rest c ⟨hts, hhc, hsv, hic⟩ he habs ih

theorem afterIssue_zero (o : PollOutcome) (rest : List PollOutcome) (base : PState)
    (hpre : PollingPre base)
    (hnf : hasOkFailed (o :: rest) = false)
    (ih : ∀ c : PState, PollingPre c → hasOkFailed rest = false →
      ((runLoop c rest).1.filter id).length = 0) :
    ((runLoop (pollScanStep base o).1 rest).1.filter id).length = 0 := by
  obtain ⟨hts, hhc, hsv, hic⟩ := hpre
  have hnfr : hasOkFailed rest = false := by
    simp only [hasOkFailed, List.any_cons, Bool.or_eq_false_iff] at hnf
    exact hnf.2
  cases o with
  | netError =>
    exact ih _ ⟨hts, hhc, hsv, hic⟩ hnfr
  | ok scan =>
    cases hss : scan.status with
    | pending =>
      simp only [pollScanStep, hss]
      refine ih _ ⟨hts, hhc, by simp [isTerminalStatus], ?_⟩ hnfr
      intro s hs
      simp only at hs
      exact hic s hs
    | in_progress =>
      simp only [pollScanStep, hss]
      refine ih _ ⟨hts, hhc, by simp [isTerminalStatus], ?_⟩ hnfr
      intro s hs
      simp only at hs
      exact hic s hs
    | completed =>
      simp only [pollScanStep, hss, hhc, Bool.false_eq_true, if_false]
      rw [runLoop_completed_quiesce _ rest rfl rfl]
      simp
    | failed =>
      exfalso
      simp only [hasOkFailed, List.any_cons, Bool.or_eq_false_iff, hss] at hnf
      simp at hnf

theorem runLoop_no_failed_zero (os : List PollOutcome) :
    ∀ c : PState, PollingPre c → hasOkFailed os = false →
      ((runLoop c os).1.filter id).length = 0 := by
  induction os with
  | nil =>
    intro c _ _
    simp [runLoop]
  | cons o rest ih =>
    intro c hpre hnf
    obtain ⟨hts, hhc, hsv, hic⟩ := hpre
    cases he : c.effectPending with
    | true =>
      rw [runLoop]
      simp only [he, if_true]
      have hec : runEffect c =
          ({ c with effectPending := false, intervalClosure := some c.statusVar }, true) := by
        simp [runEffect, hhc]
      rw [hec]
      simp only [List.filter_cons, hts, id_eq, Bool.false_eq_true, if_false]
      refine afterIssue_zero o rest _ ⟨?_, ?_, ?_, ?_⟩ hnf ih
      · simp [hts]
      · simpa using hhc
      · simpa using hsv
      · intro s hs
        simp only [Option.some.injEq] at hs
        rw [← hs]
        exact hsv
    | false =>
      cases hcl : c.intervalClosure with
      | none =>
        rw [runLoop_idle_quiesce c (o :: rest) he hcl]
        simp
      | some s =>
        have hsterm : isTerminalStatus s = false := hic s hcl
        rw [runLoop]
        simp only [he, hcl, hsterm, Bool.false_eq_true, if_false]
        simp only [List.filter_cons, hts, id_eq, Bool.false_eq_true, if_false]
        exact afterIssue_zero o rest c ⟨hts, hhc, hsv, hic⟩ hnf ih

/-- A `GET /api/scans/{id}` response with status `failed`, as produced for
a scan whose analysis failed. -/
def failedScanSample : ScanResponse :=
  { id := "68f1aa00"
    restaurant_name := "Chipotle"
    restaurant_website := "https://example.com"
    status := .failed
    overall_score := none
    error_message := some "Website analysis failed"
    created_at := some "2026-02-20T19:57:11"
    completed_at := some "2026-02-20T19:57:18" }

/-- A `GET /api/scans/{id}` response with status `completed` and a flattened
top-level score. -/
def completedScanSample : ScanResponse :=
  { id := "68f1aa00"
    restaurant_name := "Chipotle"
    restaurant_website := "https://example.com"
    status := .completed
    overall_score := some 68
    error_message := none
    created_at := some "2026-02-20T19:57:11"
    completed_at := some "2026-02-20T19:57:18" }

/-- C5 counterexample: when the poll of a scan returns status `failed`, the
component does issue a further HTTP GET after that terminal status was
observed.  The `failed` branch clears the interval but does not set
`hasCompletedRef`, and the effect — whose dependency array contains
`status` — re-runs and immediately calls `pollScan()` again: with the
server answering `failed` twice, exactly one GET is issued after the
terminal status had been observed, contradicting the claim that no further
polls are issued. -/
theorem pollsAfterFailed_nonzero :
    pollsAfterTerminal [.ok failedScanSample, .ok failedScanSample] = 1 := by
  decide

/-- C5 (amended): the poll timer fires every 2000 ms; once a terminal
status is observed the interval is cancelled, and — provided the server
keeps answering a terminal status afterwards — at most one further GET is
ever issued (the immediate re-poll of the restarted effect after `failed`);
when the scan never fails, i.e. the terminal status is `completed`, no GET
at all is issued after the terminal status is observed. -/
theorem polling_stops_after_terminal (os : List PollOutcome) :
    pollIntervalMs = 2000 ∧
    (absorbingAfterTerminal os = true → pollsAfterTerminal os ≤ 1) ∧
    (hasOkFailed os = false → pollsAfterTerminal os = 0) := by
  have hpre : PollingPre initialPState := by
    refine ⟨rfl, rfl, rfl, ?_⟩
    intro s hs
    simp [initialPState] at hs
  refine ⟨rfl, ?_, ?_⟩
  · intro h
    exact runLoop_pre_bound os initialPState hpre h
  · intro h
    exact runLoop_no_failed_zero os initialPState hpre h

theorem polling_stops_after_terminal_witness :
    pollsAfterTerminal [.ok failedScanSample, .ok failedScanSample] ≤ 1 ∧
    pollsAfterTerminal [.ok completedScanSample] = 0 :=
  ⟨(polling_stops_after_terminal [.ok failedScanSample, .ok failedScanSample]).2.1 (by decide),
   (polling_stops_after_terminal [.ok completedScanSample]).2.2 (by decide)⟩

/-- A component state in the middle of polling: an `in_progress` scan with
an active interval. -/
def pollingPStateSample : PState :=
  { statusVar := .in_progress
    progress := 50
    currentScan := none
    hasCompleted := false
    intervalClosure := some .in_progress
    effectPending := false
    terminalSeen := false }

/-- C6: a poll that throws (network or server error) is caught and only
logged: the component state — including the displayed status and the
active interval — is unchanged, `onComplete` is not invoked, and the run
continues exactly as it would have without the error: the errored GET is
issued and every later poll and completion is the same. -/
theorem polling_error_transient :
    (∀ c : PState, pollScanStep c .netError = (c, none)) ∧
    (∀ (c : PState) (os : List PollOutcome) (s : ScanStatus),
      c.effectPending = false → c.intervalClosure = some s → isTerminalStatus s = false →
      runLoop c (.netError :: os) =
        (c.terminalSeen :: (runLoop c os).1, (runLoop c os).2)) := by
  constructor
  · intro c
    rfl
  · intro c os s hep hcl hterm
    rw [runLoop]
    simp only [hep, hcl, hterm, Bool.false_eq_true, if_false]
    simp [pollScanStep]

theorem polling_error_transient_witness :
    runLoop pollingPStateSample [.netError] =
      (pollingPStateSample.terminalSeen :: (runLoop pollingPStateSample []).1,
        (runLoop pollingPStateSample []).2) :=
  polling_error_transient.2 pollingPStateSample [] .in_progress rfl rfl rfl

/-- Restaurant record shown on the confirmation page, from the
`mockRestaurant` shape in `src/pages/Index.tsx` lines 17-24. -/
structure Restaurant where
  name : String
  website : String
  address : String
  rating : ℚ
  reviewCount : Nat
  type : String
deriving DecidableEq, Repr

/-- The hardcoded mock restaurant, `Index.tsx` lines 17-24. -/
def mockRestaurant : Restaurant :=
  { name := "The Golden Fork"
    website := "https://www.thegoldenfork.com"
    address := "123 Main Street, San Francisco, CA 94102"
    rating := 43/10
    reviewCount := 287
    type := "American Restaurant" }

/-- One category block of the results object (`score` + `insights`),
from the `mockResults` shape in `Index.tsx` lines 26-90. -/
structure CategoryResult where
  score : ℚ
  insights : List String
deriving DecidableEq, Repr

/-- An issue entry of the results object. -/
structure IssueItem where
  title : String
  description : String
  severity : String
deriving DecidableEq, Repr

/-- An opportunity entry of the results object. -/
structure OpportunityItem where
  title : String
  description : String
  impact : String
deriving DecidableEq, Repr

/-- The results object rendered by the dashboard, from `mockResults` in
`Index.tsx` lines 26-90. -/
structure ResultsData where
  overall : ℚ
  website : CategoryResult
  google : CategoryResult
  reviews : CategoryResult
  ordering : CategoryResult
  issues : List IssueItem
  opportunities : List OpportunityItem
deriving DecidableEq, Repr

/-- The hardcoded mock results, `Index.tsx` lines 26-90. -/
def mockResults : ResultsData :=
  { overall := 68
    website := ⟨72, ["Mobile load time is 4.2 seconds (should be under 3s)",
                     "Missing meta descriptions on key pages"]⟩
    google := ⟨85, ["Profile is claimed and verified",
                    "Business hours are up to date"]⟩
    reviews := ⟨61, ["Only 12% of reviews have owner responses",
                     "Average rating dropped 0.3 stars this quarter"]⟩
    ordering := ⟨45, ["No direct online ordering available",
                      "Order button hard to find on website"]⟩
    issues := [⟨"Slow mobile website",
                "Page loads in 4.2s - customers may leave before it finishes", "high"⟩,
               ⟨"Low review response rate",
                "Responding to reviews builds trust and improves rankings", "high"⟩,
               ⟨"No direct ordering",
                "Third-party apps take 15-30% of each order", "medium"⟩]
    opportunities := [⟨"Add online ordering",
                       "Could increase revenue by 20% with direct orders", "high"⟩,
                      ⟨"Respond to recent reviews",
                       "23 reviews in the last month need responses", "high"⟩,
                      ⟨"Update Google photos",
                       "Last photo added 8 months ago - fresh photos boost engagement", "medium"⟩] }

/-- A dynamically-typed JSON value, for the `Record<string, any>` field
`analysis_data` of `WebsiteAnalysisResponse`. -/
inductive JsonVal where
  | bool (b : Bool)
  | num (q : ℚ)
  | str (s : String)
deriving DecidableEq, Repr

/-- A recommendation record, from `WebsiteRecommendation` in
`src/types/api.ts`. -/
structure WebsiteRecommendation where
  category : String
  priority : String
  title : String
  description : String
deriving DecidableEq, Repr

/-- Response of `POST /api/website/analyze`, from `WebsiteAnalysisResponse`
in `src/types/api.ts`. -/
structure WebsiteAnalysisResponse where
  scan_id : String
  url : String
  website_score : ℚ
  status : String
  analysis_data : List (String × JsonVal)
  recommendations : List WebsiteRecommendation
  created_at : String
deriving DecidableEq, Repr

/-- The screen selector of the single-page app, from the `AppState` union
type in `Index.tsx` line 14. -/
inductive AppScreen where
  | landing
  | confirmation
  | scanning
  | results
  | website_analyzing
  | website_results
deriving DecidableEq, Repr

/-- State of the `Index` page: all `useState` hooks of `Index.tsx`
lines 111-121. -/
structure IndexModel where
  appState : AppScreen
  searchName : String
  searchCity : String
  restaurant : Restaurant
  showLeadModal : Bool
  scanId : Option String
  isCreatingScan : Bool
  scanError : Option String
  results : ResultsData
  realOverallScore : Option ℚ
  websiteResults : Option WebsiteAnalysisResponse
  isAnalyzingWebsite : Bool
deriving DecidableEq, Repr

/-- Initial state of the `Index` page (the `useState` initialisers). -/
def initialIndexModel : IndexModel :=
  { appState := .landing
    searchName := ""
    searchCity := ""
    restaurant := mockRestaurant
    showLeadModal := false
    scanId := none
    isCreatingScan := false
    scanError := none
    results := mockResults
    realOverallScore := none
    websiteResults := none
    isAnalyzingWebsite := false }

/-- JavaScript `a || b` on strings: the empty string is falsy. -/
def jsOrString (a b : String) : String :=
  if a = "" then b else a

/-- `handleSearch` (`Index.tsx` lines 123-132): store the search input,
set the restaurant to the mock record with the searched name, and go to
the confirmation screen. -/
def handleSearch (m : IndexModel) (name city : String) : IndexModel :=
  { m with searchName := name
           searchCity := city
           restaurant := { mockRestaurant with name := jsOrString name mockRestaurant.name }
           appState := .confirmation }

/-- `handleConfirm` success path (`Index.tsx` lines 134-156): the scan was
created, its id stored, and the app moves to the scanning screen. -/
def handleConfirmOk (m : IndexModel) (sid : String) : IndexModel :=
  { m with scanError := none
           scanId := some sid
           appState := .scanning
           isCreatingScan := false }

/-- `handleConfirm` failure path: the error message is stored and the app
stays on the confirmation screen. -/
def handleConfirmErr (m : IndexModel) (msg : String) : IndexModel :=
  { m with scanError := some msg
           isCreatingScan := false }

/-- `handleScanComplete` (`Index.tsx` lines 158-173): keep the mock
category data, replace the overall score with the real one, and show the
results screen. -/
def handleScanComplete (m : IndexModel) (data : CompletionData) : IndexModel :=
  { m with realOverallScore := some data.overall
           results := { mockResults with overall := data.overall }
           appState := .results }

/-- Start of `handleQuickWebsiteCheck` (`Index.tsx` lines 175-179): clear
any error and show the analyzing screen while the request is in flight. -/
def handleQuickStart (m : IndexModel) : IndexModel :=
  { m with isAnalyzingWebsite := true
           scanError := none
           appState := .website_analyzing }

/-- Success continuation of `handleQuickWebsiteCheck` (lines 180-186):
store the analysis response and show the website-results screen. -/
def handleQuickOk (m : IndexModel) (r : WebsiteAnalysisResponse) : IndexModel :=
  { m with websiteResults := some r
           appState := .website_results
           isAnalyzingWebsite := false }

/-- Failure continuation of `handleQuickWebsiteCheck` (lines 187-193):
store the error message and return to the landing screen;
`websiteResults` is not touched. -/
def handleQuickErr (m : IndexModel) (msg : String) : IndexModel :=
  { m with scanError := some msg
           appState := .landing
           isAnalyzingWebsite := false }

/-- First-occurrence string replacement, as JavaScript
`String.prototype.replace` with a string pattern. -/
def replaceFirst (s pat repl : String) : String :=
  match s.splitOn pat with
  | [] => s
  | [x] => x
  | x :: xs => x ++ repl ++ String.intercalate pat xs

/-- Hostname of a URL: the part after the scheme separator and before the
first slash (the `new URL(url).hostname` read in `Index.tsx` line 202). -/
def urlHostname (url : String) : String :=
  match url.splitOn "://" with
  | [] => ""
  | [whole] => (whole.splitOn "/").headD ""
  | _ :: rest => ((String.intercalate "://" rest).splitOn "/").headD ""

/-- `handleUpgradeToFullScan` (`Index.tsx` lines 196-206): pre-fill the
restaurant from the analysed website and go to the confirmation screen;
a no-op when no analysis response is in hand. -/
def handleUpgradeToFullScan (m : IndexModel) : IndexModel :=
  match m.websiteResults with
  | none => m
  | some wr =>
    { m with restaurant :=
               { mockRestaurant with
                   website := wr.url
                   name := replaceFirst (urlHostname wr.url) "www." "" }
             appState := .confirmation }

/-- `handleBack` (`Index.tsx` lines 208-213). -/
def handleBack (m : IndexModel) : IndexModel :=
  { m with appState := .landing
           searchName := ""
           searchCity := ""
           websiteResults := none
           scanError := none }

/-- User-interface transitions of the `Index` page.  Each handler is
invocable only from the screen that renders the component exposing it:
`SearchForm` (search and quick check) on `landing`,
`RestaurantConfirmation` on `confirmation`, `ScanProgress.onComplete` on
`scanning`, the quick-check continuations after its start, `WebsiteResults`
on `website_results`, and the back buttons on `confirmation`,
`website_results` and `results`. -/
inductive IndexStep : IndexModel → IndexModel → Prop where
  | search (m : IndexModel) (name city : String) :
      m.appState = .landing → IndexStep m (handleSearch m name city)
  | quickStart (m : IndexModel) (url : String) :
      m.appState = .landing → IndexStep m (handleQuickStart m)
  | confirmOk (m : IndexModel) (sid : String) :
      m.appState = .confirmation → IndexStep m (handleConfirmOk m sid)
  | confirmErr (m : IndexModel) (msg : String) :
      m.appState = .confirmation → IndexStep m (handleConfirmErr m msg)
  | scanComplete (m : IndexModel) (d : CompletionData) :
      m.appState = .scanning → IndexStep m (handleScanComplete m d)
  | quickOk (m : IndexModel) (r : WebsiteAnalysisResponse) :
      m.appState = .website_analyzing → IndexStep m (handleQuickOk m r)
  | quickErr (m : IndexModel) (msg : String) :
      m.appState = .website_analyzing → IndexStep m (handleQuickErr m msg)
  | upgrade (m : IndexModel) :
      m.appState = .website_results → IndexStep m (handleUpgradeToFullScan m)
  | back (m : IndexModel) :
      m.appState = .confirmation ∨ m.appState = .website_results ∨ m.appState = .results →
      IndexStep m (handleBack m)

/-- States of the `Index` page reachable from its initial render. -/
def IndexReach (m : IndexModel) : Prop :=
  Relation.ReflTransGen IndexStep initialIndexModel m

/-- Shape invariant tying the rendered screen to the stored analysis
response: on the landing and analyzing screens no response is stored, and
the website-results screen always has one in hand. -/
def WebsiteResultsInv (m : IndexModel) : Prop :=
  ((m.appState = .landing ∨ m.appState = .website_analyzing) → m.websiteResults = none) ∧
  (m.appState = .website_results → ∃ r, m.websiteResults = some r)

theorem indexStep_preserves_inv (m m' : IndexModel) (h : IndexStep m m')
    (hi : WebsiteResultsInv m) : WebsiteResultsInv m' := by
  cases h with
  | search name city hg =>
    exact ⟨by intro hc; simp [handleSearch] at hc, by intro hc; simp [handleSearch] at hc⟩
  | quickStart url hg =>
    refine ⟨?_, by intro hc; simp [handleQuickStart] at hc⟩
    intro _
    simpa [handleQuickStart] using hi.1 (Or.inl hg)
  | confirmOk sid hg =>
    exact ⟨by intro hc; simp [handleConfirmOk] at hc, by intro hc; simp [handleConfirmOk] at hc⟩
  | confirmErr msg hg =>
    refine ⟨?_, ?_⟩ <;> intro hc <;>
      simp [handleConfirmErr, hg] at hc
  | scanComplete d hg =>
    exact ⟨by intro hc; simp [handleScanComplete] at hc,
           by intro hc; simp [handleScanComplete] at hc⟩
  | quickOk r hg =>
    exact ⟨by intro hc; simp [handleQuickOk] at hc, by intro _; exact ⟨r, rfl⟩⟩
  | quickErr msg hg =>
    refine ⟨?_, by intro hc; simp [handleQuickErr] at hc⟩
    intro _
    simpa [handleQuickErr] using hi.1 (Or.inr hg)
  | upgrade hg =>
    obtain ⟨r, hr⟩ := hi.2 hg
    refine ⟨?_, ?_⟩ <;> intro hc <;>
      simp [handleUpgradeToFullScan, hr] at hc
  | back hg =>
    exact ⟨by intro _; rfl, by intro hc; simp [handleBack] at hc⟩

theorem indexReach_inv (m : IndexModel) (h : IndexReach m) : WebsiteResultsInv m := by
  induction h with
  | refl =>
    exact ⟨fun _ => rfl, by intro hc; simp [initialIndexModel] at hc⟩
  | tail _ hstep ih => exact indexStep_preserves_inv _ _ hstep ih

/-- C8 counterexample: searching for "al watan" shows "al watan" — not the
hardcoded mock name — on the confirmation page: `handleSearch` overrides
the mock record's `name` with the searched name (`Index.tsx` lines
127-130), so the displayed record is not made up purely of mock values. -/
theorem confirmation_name_from_input :
    (handleSearch initialIndexModel "al watan" "San Jose").restaurant.name = "al watan" ∧
    mockRestaurant.name = "The Golden Fork" ∧
    (handleSearch initialIndexModel "al watan" "San Jose").restaurant.name ≠
      mockRestaurant.name := by
  refine ⟨rfl, rfl, ?_⟩
  decide

/-- C8 (amended): after a search, the restaurant shown on the confirmation
page has the hardcoded mock website, address, rating, review count and
category, while its name is the user's searched name (the mock name is
used only when the searched name is the empty string, which the search
form's non-empty guard prevents). -/
theorem confirmation_restaurant_mostly_mock (m : IndexModel) (name city : String) :
    (handleSearch m name city).restaurant.website = mockRestaurant.website ∧
    (handleSearch m name city).restaurant.address = mockRestaurant.address ∧
    (handleSearch m name city).restaurant.rating = mockRestaurant.rating ∧
    (handleSearch m name city).restaurant.reviewCount = mockRestaurant.reviewCount ∧
    (handleSearch m name city).restaurant.type = mockRestaurant.type ∧
    (handleSearch m name city).restaurant.name = jsOrString name mockRestaurant.name :=
  ⟨rfl, rfl, rfl, rfl, rfl, rfl⟩

/-- A `GET /api/scans/{id}` response that is `completed` but carries no
top-level `overall_score`. -/
def completedNoScoreSample : ScanResponse :=
  { id := "68f1aa00"
    restaurant_name := "Chipotle"
    restaurant_website := "https://example.com"
    status := .completed
    overall_score := none
    error_message := none
    created_at := some "2026-02-20T19:57:11"
    completed_at := some "2026-02-20T19:57:18" }

/-- C9: when a poll reports status `completed` with the top-level
`overall_score` absent, the component invokes `onComplete` with an overall
score of exactly 0 (`scan.overall_score || 0`), and `handleScanComplete`
then renders the results page with `results.overall = 0` — the missing
value is silently displayed as a zero score. -/
theorem missing_score_becomes_zero (c : PState) (scan : ScanResponse) (m : IndexModel)
    (hc : c.hasCompleted = false) (hs : scan.status = .completed)
    (ho : scan.overall_score = none) :
    (pollScanStep c (.ok scan)).2 = some ⟨0, scan⟩ ∧
    (handleScanComplete m ⟨0, scan⟩).results.overall = 0 := by
  constructor
  · simp [pollScanStep, hs, hc, jsOrZero, ho]
  · rfl

theorem missing_score_becomes_zero_witness :
    (pollScanStep initialPState (.ok completedNoScoreSample)).2 =
      some ⟨0, completedNoScoreSample⟩ ∧
    (handleScanComplete initialIndexModel ⟨0, completedNoScoreSample⟩).results.overall = 0 :=
  missing_score_becomes_zero initialPState completedNoScoreSample initialIndexModel rfl rfl rfl

/-- A successful `POST /api/website/analyze` response, shaped as in the
feature documentation. -/
def websiteResponseSample : WebsiteAnalysisResponse :=
  { scan_id := "6998bc978ec046b091a95b22"
    url := "https://example.com"
    website_score := 145/2
    status := "completed"
    analysis_data := [("https_enabled", .bool true), ("performance_score", .num 85)]
    recommendations := [⟨"Performance", "high", "Improve Website Speed",
      "Your website performance score is 85/100"⟩]
    created_at := "2026-02-20T19:57:11.258735" }

/-- The app mid quick-website-check: analyzing screen, reached from the
landing page. -/
def analyzingModel : IndexModel :=
  handleQuickStart initialIndexModel

/-- The app showing the website-results screen after a successful quick
check. -/
def websiteResultsModel : IndexModel :=
  handleQuickOk analyzingModel websiteResponseSample

/-- C10: in every reachable app state, if the quick website check fails
(`api.analyzeWebsite` rejects), the app returns to the landing screen with
the error message stored and `websiteResults` still `null`; and the
website-results screen is only ever reached with a successful analysis
response in hand (`websiteResults` is `some`). -/
theorem quick_check_failure_safe :
    (∀ (m : IndexModel) (msg : String), IndexReach m → m.appState = .website_analyzing →
      (handleQuickErr m msg).appState = .landing ∧
      (handleQuickErr m msg).scanError = some msg ∧
      (handleQuickErr m msg).websiteResults = none) ∧
    (∀ m : IndexModel, IndexReach m → m.appState = .website_results →
      ∃ r, m.websiteResults = some r) := by
  constructor
  · intro m msg hr ha
    have hi := indexReach_inv m hr
    refine ⟨rfl, rfl, ?_⟩
    simpa [handleQuickErr] using hi.1 (Or.inr ha)
  · intro m hr ha
    exact (indexReach_inv m hr).2 ha

theorem quick_check_failure_safe_witness :
    ((handleQuickErr analyzingModel "Failed to analyze website").appState = .landing ∧
     (handleQuickErr analyzingModel "Failed to analyze website").scanError =
       some "Failed to analyze website" ∧
     (handleQuickErr analyzingModel "Failed to analyze website").websiteResults = none) ∧
    ∃ r, websiteResultsModel.websiteResults = some r :=
  ⟨quick_check_failure_safe.1 analyzingModel "Failed to analyze website"
      (Relation.ReflTransGen.single
        (IndexStep.quickStart initialIndexModel "https://example.com" rfl)) rfl,
   quick_check_failure_safe.2 websiteResultsModel
      (Relation.ReflTransGen.tail
        (Relation.ReflTransGen.single
          (IndexStep.quickStart initialIndexModel "https://example.com" rfl))
        (IndexStep.quickOk analyzingModel websiteResponseSample rfl)) rfl⟩

/-- Modelled from the spec: the per-category score bundle computed by the
missing `backend/app/core/scoring.py` and stored whole under `results`
("results (nested per-category scores)"; the debugging summary shows
`results` holding `overall_score` and `letter_grade` alongside the
category scores). -/
structure ScoreBundle where
  overall_score : ℚ
  letter_grade : String
  website_score : ℚ
  google_score : ℚ
  reviews_score : ℚ
  ordering_score : ℚ
deriving DecidableEq, Repr

/-- Modelled from the spec: a document of the `scans` collection (§3 and
§6 of the specification): restaurant name/website, status, flattened
`overall_score` and `letter_grade`, nested `results`, `error_message`.
`analyzersRun` is a ghost counter of analyzer steps the orchestrator has
executed for this scan. -/
structure ScanDoc where
  restaurant_name : String
  restaurant_website : String
  status : ScanStatus
  overall_score : Option ℚ
  letter_grade : Option String
  results : Option ScoreBundle
  error_message : Option String
  analyzersRun : Nat
deriving DecidableEq, Repr

/-- Modelled from the spec: `POST /api/scans/` creates the scan document
with status `pending` and no results ("created on scan request"). -/
def createScan (name website : String) : ScanDoc :=
  { restaurant_name := name
    restaurant_website := website
    status := .pending
    overall_score := none
    letter_grade := none
    results := none
    error_message := none
    analyzersRun := 0 }

/-- Modelled from the spec: the completion update of the missing
`scan_orchestrator.py`, after the flattening fix quoted in the in-repo
debugging summary: status `completed`, `overall_score` and `letter_grade`
copied from the score bundle to the top level, and the full bundle kept
under `results`. -/
def completeScan (d : ScanDoc) (b : ScoreBundle) : ScanDoc :=
  { d with status := .completed
           overall_score := some b.overall_score
           letter_grade := some b.letter_grade
           results := some b }

/-- Modelled from the spec: the orchestrator's writes to a scan document
("mutated by the orchestrator as analyzers complete, terminal on completed
or failed"): it marks the scan `in_progress` when it starts, runs
analyzers while `in_progress`, and writes a terminal status only after at
least one analyzer has run. -/
inductive OrchStep : ScanDoc → ScanDoc → Prop where
  | start (d : ScanDoc) :
      d.status = .pending → OrchStep d { d with status := .in_progress }
  | analyzer (d : ScanDoc) :
      d.status = .in_progress → OrchStep d { d with analyzersRun := d.analyzersRun + 1 }
  | complete (d : ScanDoc) (b : ScoreBundle) :
      d.status = .in_progress → 1 ≤ d.analyzersRun → OrchStep d (completeScan d b)
  | fail (d : ScanDoc) (msg : String) :
      d.status = .in_progress → 1 ≤ d.analyzersRun →
      OrchStep d { d with status := .failed, error_message := some msg }

/-- Scan documents reachable from creation through orchestrator writes. -/
def OrchReach (name website : String) (d : ScanDoc) : Prop :=
  Relation.ReflTransGen OrchStep (createScan name website) d

/-- C1: every reachable scan document whose status is `completed` carries
its nested results, and the flattened top-level `overall_score` equals the
nested `results.overall_score` — the frontend's flat read
(`scan.overall_score`) sees exactly the computed score. -/
theorem completed_score_flattened (name website : String) (d : ScanDoc)
    (h : OrchReach name website d) :
    d.status = .completed →
    ∃ b : ScoreBundle, d.results = some b ∧ d.overall_score = some b.overall_score := by
  induction h with
  | refl =>
    intro hc
    simp [createScan] at hc
  | tail _ hstep ih =>
    intro hc
    cases hstep with
    | start hd => simp at hc
    | analyzer hd => simp [hd] at hc
    | complete b hd hn => exact ⟨b, rfl, rfl⟩
    | fail msg hd hn => simp at hc

/-- Rank of a status along the forward lifecycle
pending → in_progress → {completed, failed}. -/
def statusRank (s : ScanStatus) : Nat :=
  match s with
  | .pending => 0
  | .in_progress => 1
  | .completed => 2
  | .failed => 2

/-- C2: scan status only moves forward: every orchestrator write weakly
increases the status rank, terminal documents are never written to again,
a terminal status is only ever written from `in_progress`, and every
reachable terminal document has had at least one analyzer run. -/
theorem status_forward_only (name website : String) :
    (∀ d e : ScanDoc, OrchStep d e → statusRank d.status ≤ statusRank e.status) ∧
    (∀ d e : ScanDoc, OrchStep d e → d.status ≠ .completed ∧ d.status ≠ .failed) ∧
    (∀ d e : ScanDoc, OrchStep d e →
      (e.status = .completed ∨ e.status = .failed) → d.status = .in_progress) ∧
    (∀ d : ScanDoc, OrchReach name website d →
      (d.status = .completed ∨ d.status = .failed) → 1 ≤ d.analyzersRun) := by
  refine ⟨?_, ?_, ?_, ?_⟩
  · intro d e hstep
    cases hstep with
    | start hd => simp [hd, statusRank]
    | analyzer hd => simp [hd, statusRank]
    | complete b hd hn => simp [hd, statusRank, completeScan]
    | fail msg hd hn => simp [hd, statusRank]
  · intro d e hstep
    cases hstep with
    | start hd => rw [hd]; exact ⟨by decide, by decide⟩
    | analyzer hd => rw [hd]; exact ⟨by decide, by decide⟩
    | complete b hd hn => rw [hd]; exact ⟨by decide, by decide⟩
    | fail msg hd hn => rw [hd]; exact ⟨by decide, by decide⟩
  · intro d e hstep he
    cases hstep with
    | start hd => simp at he
    | analyzer hd => rw [hd] at he; simp at he
    | complete b hd hn => exact hd
    | fail msg hd hn => exact hd
  · intro d h
    induction h with
    | refl =>
      intro hc
      simp [createScan] at hc
    | tail _ hstep ih =>
      intro hc
      cases hstep with
      | start hd => simp at hc
      | analyzer hd => rw [hd] at hc; simp at hc
      | complete b hd hn => exact hn
      | fail msg hd hn => exact hn

/-- A freshly created scan document. -/
def scanDoc0 : ScanDoc := createScan "Chipotle" "https://example.com"

/-- The document after the orchestrator marks it in progress. -/
def scanDoc1 : ScanDoc := { scanDoc0 with status := .in_progress }

/-- The document after one analyzer has run. -/
def scanDoc2 : ScanDoc := { scanDoc1 with analyzersRun := scanDoc1.analyzersRun + 1 }

/-- The score bundle of the documented sample run (overall 9.78, grade F). -/
def sampleBundle : ScoreBundle :=
  { overall_score := 978/100
    letter_grade := "F"
    website_score := 72
    google_score := 85
    reviews_score := 61
    ordering_score := 45 }

/-- The document after the orchestrator's completion update. -/
def scanDoc3 : ScanDoc := completeScan scanDoc2 sampleBundle

theorem scanDoc3_reachable : OrchReach "Chipotle" "https://example.com" scanDoc3 :=
  Relation.ReflTransGen.tail
    (Relation.ReflTransGen.tail
      (Relation.ReflTransGen.single (OrchStep.start scanDoc0 rfl))
      (OrchStep.analyzer scanDoc1 rfl))
    (OrchStep.complete scanDoc2 sampleBundle rfl (by decide))

theorem completed_score_flattened_witness :
    ∃ b : ScoreBundle, scanDoc3.results = some b ∧
      scanDoc3.overall_score = some b.overall_score :=
  completed_score_flattened "Chipotle" "https://example.com" scanDoc3 scanDoc3_reachable rfl

theorem status_forward_only_witness :
    statusRank scanDoc0.status ≤ statusRank scanDoc1.status ∧ 1 ≤ scanDoc3.analyzersRun :=
  ⟨(status_forward_only "Chipotle" "https://example.com").1 scanDoc0 scanDoc1
      (OrchStep.start scanDoc0 rfl),
   (status_forward_only "Chipotle" "https://example.com").2.2.2 scanDoc3
      scanDoc3_reachable (Or.inl rfl)⟩

/-- Weighted PageSpeed composite, from the scoring formula quoted in
`docs/PAGESPEED_INTEGRATION_SUMMARY.md` (the underlying
`core/scoring.py` is not in the snapshot): performance 40%,
accessibility 25%, SEO 20%, best practices 15%. -/
def pagespeedComposite (performance accessibility seo best_practices : ℚ) : ℚ :=
  performance * (40/100) + accessibility * (25/100) +
    seo * (20/100) + best_practices * (15/100)

/-- Total website score, from the same documented formula: PageSpeed
composite 60%, mobile friendliness 15%, SSL 15%, online ordering 10%. -/
def websiteTotalScore (pagespeed mobile ssl ordering : ℚ) : ℚ :=
  pagespeed * (60/100) + mobile * (15/100) + ssl * (15/100) + ordering * (10/100)

/-- Modelled from the spec: the overall digital-health score computed by
the missing `core/scoring.py` — "a fixed-weight linear formula combining
analyzer outputs into a 0–100 score", a weighted composite of the
website, business-profile, review and ordering sub-scores (§2, glossary).
The four fixed weights are parameters, since the specification does not
state their values. -/
def overallScore (w1 w2 w3 w4 website google reviews ordering : ℚ) : ℚ :=
  w1 * website + w2 * google + w3 * reviews + w4 * ordering

/-- Modelled from the spec: the letter grade derived from the 0–100 score
by the missing `core/scoring.py`, one of A/B/C/D/F; decade thresholds,
consistent with the only documented sample (score 9.78 ↦ grade "F"). -/
def letterGrade (s : ℚ) : String :=
  if 90 ≤ s then "A"
  else if 80 ≤ s then "B"
  else if 70 ≤ s then "C"
  else if 60 ≤ s then "D"
  else "F"

/-- Score bundle assembled from the four category sub-scores with the
fixed weights. -/
def mkScoreBundle (w1 w2 w3 w4 website google reviews ordering : ℚ) : ScoreBundle :=
  { overall_score := overallScore w1 w2 w3 w4 website google reviews ordering
    letter_grade := letterGrade (overallScore w1 w2 w3 w4 website google reviews ordering)
    website_score := website
    google_score := google
    reviews_score := reviews
    ordering_score := ordering }

theorem letterGrade_mem (s : ℚ) : letterGrade s ∈ ["A", "B", "C", "D", "F"] := by
  unfold letterGrade
  split_ifs <;> simp

/-- C7: a scan completed with scores computed by the weighted formula from
category sub-scores in [0,100] (with nonnegative fixed weights summing
to 1) carries a top-level `overall_score` in [0,100], and its
`letter_grade` is one of A, B, C, D, F. -/
theorem completed_scan_score_range (d : ScanDoc) (w1 w2 w3 w4 ws gs vs cs : ℚ)
    (hw1 : 0 ≤ w1) (hw2 : 0 ≤ w2) (hw3 : 0 ≤ w3) (hw4 : 0 ≤ w4)
    (hsum : w1 + w2 + w3 + w4 = 1)
    (hws0 : 0 ≤ ws) (hws1 : ws ≤ 100)
    (hgs0 : 0 ≤ gs) (hgs1 : gs ≤ 100)
    (hvs0 : 0 ≤ vs) (hvs1 : vs ≤ 100)
    (hcs0 : 0 ≤ cs) (hcs1 : cs ≤ 100) :
    ∃ q : ℚ,
      (completeScan d (mkScoreBundle w1 w2 w3 w4 ws gs vs cs)).overall_score = some q ∧
      0 ≤ q ∧ q ≤ 100 ∧
      (completeScan d (mkScoreBundle w1 w2 w3 w4 ws gs vs cs)).letter_grade =
        some (letterGrade q) ∧
      letterGrade q ∈ ["A", "B", "C", "D", "F"] := by
  refine ⟨overallScore w1 w2 w3 w4 ws gs vs cs, rfl, ?_, ?_, rfl, letterGrade_mem _⟩
  · have h1 : 0 ≤ w1 * ws := mul_nonneg hw1 hws0
    have h2 : 0 ≤ w2 * gs := mul_nonneg hw2 hgs0
    have h3 : 0 ≤ w3 * vs := mul_nonneg hw3 hvs0
    have h4 : 0 ≤ w4 * cs := mul_nonneg hw4 hcs0
    unfold overallScore
    linarith
  · have h1 : w1 * ws ≤ w1 * 100 := mul_le_mul_of_nonneg_left hws1 hw1
    have h2 : w2 * gs ≤ w2 * 100 := mul_le_mul_of_nonneg_left hgs1 hw2
    have h3 : w3 * vs ≤ w3 * 100 := mul_le_mul_of_nonneg_left hvs1 hw3
    have h4 : w4 * cs ≤ w4 * 100 := mul_le_mul_of_nonneg_left hcs1 hw4
    unfold overallScore
    linarith

theorem completed_scan_score_range_witness :
    ∃ q : ℚ,
      (completeScan scanDoc2 (mkScoreBundle (1/4) (1/4) (1/4) (1/4) 72 85 61 45)).overall_score
        = some q ∧
      0 ≤ q ∧ q ≤ 100 ∧
      (completeScan scanDoc2 (mkScoreBundle (1/4) (1/4) (1/4) (1/4) 72 85 61 45)).letter_grade
        = some (letterGrade q) ∧
      letterGrade q ∈ ["A", "B", "C", "D", "F"] :=
  completed_scan_score_range scanDoc2 (1/4) (1/4) (1/4) (1/4) 72 85 61 45
    (by norm_num) (by norm_num) (by norm_num) (by norm_num) (by norm_num)
    (by norm_num) (by norm_num) (by norm_num) (by norm_num)
    (by norm_num) (by norm_num) (by norm_num) (by norm_num)

/-- ASCII letter or digit, the `[a-zA-Z0-9]` class of the documented
domain regex. -/
def isAlnumChar (c : Char) : Bool := c.isAlpha || c.isDigit

/-- Split a character list at the first occurrence of a separator
sequence, returning the parts before and after it, or `none` when the
separator does not occur. -/
def breakOnSep (sep : List Char) : List Char → Option (List Char × List Char)
  | [] => none
  | c :: rest =>
    if sep.isPrefixOf (c :: rest) then some ([], (c :: rest).drop sep.length)
    else
      match breakOnSep sep rest with
      | none => none
      | some (a, b) => some (c :: a, b)

/-- Split a character list on every occurrence of a separator character
(the semantics of Python's `str.split`). -/
def splitOnChar (sep : Char) : List Char → List (List Char)
  | [] => [[]]
  | c :: rest =>
    if c = sep then [] :: splitOnChar sep rest
    else
      match splitOnChar sep rest with
      | [] => [[c]]
      | a :: as => (c :: a) :: as

/-- One domain label per the regex quoted in
`docs/WEBSITE_ANALYSIS_FIXES.md`:
`[a-zA-Z0-9]([a-zA-Z0-9-]{0,61}[a-zA-Z0-9])?` — first and last characters
alphanumeric, interior characters alphanumeric or hyphen, at most 63
characters. -/
def validDomainLabel (l : List Char) : Bool :=
  match l with
  | [] => false
  | [c] => isAlnumChar c
  | c :: rest =>
      isAlnumChar c && rest.length + 1 ≤ 63 &&
      rest.dropLast.all (fun d => isAlnumChar d || d = '-') &&
      isAlnumChar (rest.getLastD c)

/-- Dot-separated domain: every label matches the label pattern (the
`(\.label)*` tail of the documented regex). -/
def validDomain (d : String) : Bool :=
  (splitOnChar '.' d.toList).all validDomainLabel

/-- Does the URL contain a scheme separator `://`? -/
def hasSchemeSep (url : String) : Bool :=
  (breakOnSep "://".toList url.toList).isSome

/-- Modelled from the spec: the URL normalization of the missing
`routes/website.py` — "Normalizes URLs by adding https:// if missing"
(`docs/WEBSITE_ANALYSIS_FIXES.md`); applied before format validation, as
witnessed by the documented test where `"not-a-url"` fails with the
reachability message rather than the format one. -/
def normalizeUrl (url : String) : String :=
  if hasSchemeSep url then url else "https://" ++ url

/-- Scheme and netloc of a URL, as Python's `urlparse` reads them: the
part before `://`, and the part after it up to the first `/`. -/
def parseSchemeNetloc (url : String) : String × String :=
  match breakOnSep "://".toList url.toList with
  | none => ("", "")
  | some (s, rest) => (String.mk s, String.mk (rest.takeWhile (fun c => c ≠ '/')))

/-- Result of URL validation: the normalized URL, or an error message. -/
inductive UrlCheck where
  | ok (normalized : String)
  | invalid (msg : String)
deriving DecidableEq, Repr

/-- Modelled from the spec: the URL validation of the missing
`routes/website.py`, from the code excerpt quoted in
`docs/WEBSITE_ANALYSIS_FIXES.md`: scheme and netloc required, scheme must
be http or https, and the domain must match the documented regex. -/
def validateUrl (url : String) : UrlCheck :=
  let n := normalizeUrl url
  let p := parseSchemeNetloc n
  if p.1 = "" || p.2 = "" then .invalid "Invalid URL format"
  else if p.1 ≠ "http" && p.1 ≠ "https" then .invalid "URL must use http or https protocol"
  else if !validDomain p.2 then .invalid "Invalid domain format"
  else .ok n

/-- An HTTP response of the analyze endpoint: status code and whether the
body carries non-empty analysis data. -/
structure HttpResponse where
  code : Nat
  hasAnalysisData : Bool
deriving DecidableEq, Repr

/-- Modelled from the spec: the `POST /api/website/analyze` handler of the
missing `routes/website.py` (§6, §7, and the fix notes): 422 when the URL
fails validation or the site is unreachable, 500 on analysis timeout or
when the analysis returns no data, otherwise 200 with the data.  The
behaviour of the external systems (reachability, timeout, analysis
output) enters through oracle parameters. -/
def analyzeWebsiteEndpoint (url : String) (reachable : String → Bool)
    (timedOut : String → Bool) (analysisData : String → List (String × JsonVal)) :
    HttpResponse :=
  match validateUrl url with
  | .invalid _ => ⟨422, false⟩
  | .ok n =>
    if !reachable n then ⟨422, false⟩
    else if timedOut n then ⟨500, false⟩
    else if (analysisData n).isEmpty then ⟨500, false⟩
    else ⟨200, true⟩

/-- C3 counterexample: a URL with a missing scheme is not rejected with
422 — it is first normalized by prefixing `https://`, and when the
normalized site is reachable and analysable the endpoint answers 200.
Submitting `"example.com"` (no scheme) against a reachable site yields
HTTP 200, contradicting the claim that every missing-scheme URL gets
422. -/
theorem missing_scheme_can_return_200 :
    hasSchemeSep "example.com" = false ∧
    (analyzeWebsiteEndpoint "example.com" (fun _ => true) (fun _ => false)
      (fun _ => [("performance_score", JsonVal.num 85)])).code = 200 := by
  constructor
  · decide
  · decide

/-- C3 (amended): a URL with a missing scheme is first normalized by
prefixing `https://` rather than rejected; after that, every URL failing
validation (non-http(s) scheme or malformed domain — a missing scheme or
netloc can only remain after normalization in degenerate cases) receives
HTTP 422, every unreachable URL receives HTTP 422, and a 200 response
always carries non-empty analysis data — never 200 with empty data. -/
theorem analyze_endpoint_rejects_invalid (url : String) (reachable timedOut : String → Bool)
    (analysisData : String → List (String × JsonVal)) :
    (∀ msg, validateUrl url = .invalid msg →
      (analyzeWebsiteEndpoint url reachable timedOut analysisData).code = 422) ∧
    (∀ n, validateUrl url = .ok n → reachable n = false →
      (analyzeWebsiteEndpoint url reachable timedOut analysisData).code = 422) ∧
    ((analyzeWebsiteEndpoint url reachable timedOut analysisData).code = 200 →
      (analyzeWebsiteEndpoint url reachable timedOut analysisData).hasAnalysisData = true) ∧
    (hasSchemeSep url = false → normalizeUrl url = "https://" ++ url) := by
  refine ⟨?_, ?_, ?_, ?_⟩
  · intro msg h
    simp [analyzeWebsiteEndpoint, h]
  · intro n h hr
    simp [analyzeWebsiteEndpoint, h, hr]
  · intro h
    cases hv : validateUrl url with
    | invalid msg =>
      exfalso
      have h422 : (analyzeWebsiteEndpoint url reachable timedOut analysisData).code = 422 := by
        simp [analyzeWebsiteEndpoint, hv]
      rw [h422] at h
      simp at h
    | ok n =>
      have hred : analyzeWebsiteEndpoint url reachable timedOut analysisData =
          (if !reachable n then { code := 422, hasAnalysisData := false }
           else if timedOut n then { code := 500, hasAnalysisData := false }
           else if (analysisData n).isEmpty then { code := 500, hasAnalysisData := false }
           else { code := 200, hasAnalysisData := true }) := by
        simp [analyzeWebsiteEndpoint, hv]
      rw [hred] at h ⊢
      split_ifs at h ⊢ <;> simp_all
  · intro h
    simp [normalizeUrl, h]

theorem analyze_endpoint_rejects_invalid_witness :
    (analyzeWebsiteEndpoint "ftp://bad.com" (fun _ => true) (fun _ => false)
      (fun _ => [("performance_score", JsonVal.num 85)])).code = 422 ∧
    (analyzeWebsiteEndpoint "https://thisdoesnotexist12345xyz.com" (fun _ => false)
      (fun _ => false) (fun _ => [("performance_score", JsonVal.num 85)])).code = 422 :=
  ⟨(analyze_endpoint_rejects_invalid "ftp://bad.com" (fun _ => true) (fun _ => false)
      (fun _ => [("performance_score", JsonVal.num 85)])).1
      "URL must use http or https protocol" (by decide),
   (analyze_endpoint_rejects_invalid "https://thisdoesnotexist12345xyz.com" (fun _ => false)
      (fun _ => false) (fun _ => [("performance_score", JsonVal.num 85)])).2.1
      "https://thisdoesnotexist12345xyz.com" (by decide) rfl⟩
